import Mathlib

/-!
Verification development for the Mutiny chat-client library
(event ingestion and state-synchronization pipeline).

This file gives a shallow embedding, in Lean, of the parts of the source
that the verified claims are about:

* `src/mutiny/_internal/backoff.py` (`ExponentialBackoff`),
* `src/mutiny/_internal/events.py` (the event variants and their
  `_gateway_handle` cache-mutation steps),
* `src/mutiny/_internal/gateway.py` (`GatewayClient.poll_loop` body),
* `src/mutiny/_internal/event_handler.py` (`EventHandler.dispatch`),
* the models in `src/mutiny/_internal/models/` (`State`, `Channel`
  variants, `Server`, `Member`, `Role`, `User`, `Message`) together with
  the generic patch semantics of `Model._update_from_dict`
  (`models/bases/models.py`).

Modelling conventions, chosen to match the Python source:

* Python dicts are modelled by `Dict α`: association lists with unique
  keys (all dicts reachable in the program have unique keys; `Dict.erase`
  removes every entry of a key, which agrees with `del d[k]` on such
  lists, and `Dict.insert` replaces the value in place like `d[k] = v`).
* Raw payload dictionaries are modelled as records whose `Option` fields
  encode key presence (`none` = key absent).  Fields that the Python
  constructor requires unconditionally (such as `"_id"`) and whose absence
  no claim exercises are typed as plain (non-`Option`) fields.
* Exceptions are modelled with `Except PyError`; a raising Python call is
  a `.error` result.  Where an exception can interrupt a sequence of
  in-place mutations, no claim in this development observes the partially
  mutated state, so handlers return the pre-event state on `.error`.
* Model attributes and `raw_data` are kept in sync by the source
  (`ParserData.get_field` writes back to `raw_data`, the `clear` handlers
  pop from `raw_data`); only the parsed attributes are modelled, since
  every claim observes attributes.
* Leaf value types that no claim inspects structurally are collapsed:
  attachments are represented by their raw payload (a `String`),
  permission values by `Nat` pairs.
* Floats (backoff delays) are modelled by `Rat`; the values involved
  (small powers of two, a cap of 64, jitter in `[0,1)`) are exact in
  either representation.
-/

set_option autoImplicit false

/-- Exception values that the embedded code can raise, mirroring the
Python exception classes that the modelled paths can produce:
Mutiny's typed authentication failures (`errors.py`), `KeyError` /
`ValueError` / `AttributeError` from dict, list and attribute access, and
`InitFieldMissing` from `models/bases/models.py`. -/
inductive PyError where
  | invalidCredentials
  | onboardingNotFinished
  | authenticationError (error : String)
  | keyError
  | valueError
  | attributeError
  | initFieldMissing
  deriving DecidableEq, Repr

/-- Model of a Python `dict[str, α]`: an association list with unique
keys, in insertion order. -/
abbrev Dict (α : Type) : Type := List (String × α)

namespace Dict

variable {α : Type}

/-- The empty dict `{}`. -/
def empty : Dict α := []

/-- Lookup, `d.get(k)`. -/
def get? : Dict α → String → Option α
  | [], _ => none
  | (k, v) :: d, key => if k = key then some v else get? d key

/-- Assignment `d[k] = v`: replaces the value in place if the key is
present, appends otherwise (Python dicts preserve insertion order). -/
def insert : Dict α → String → α → Dict α
  | [], key, val => [(key, val)]
  | (k, v) :: d, key, val =>
    if k = key then (k, val) :: d else (k, v) :: insert d key val

/-- Deletion `del d[k]` / successful `d.pop(k)`: drops the key's entry.
(On the unique-key lists the program builds, filtering out every entry of
the key is the same as dropping its single entry.) -/
def erase (d : Dict α) (key : String) : Dict α :=
  d.filter (fun p => p.1 ≠ key)

/-- Membership test `k in d`. -/
def contains (d : Dict α) (key : String) : Bool := (d.get? key).isSome

/-- The key list `d.keys()`. -/
def keys (d : Dict α) : List String := d.map Prod.fst

end Dict

/-- The `RelationshipStatus` enum (`enums.py`). `user` is the
"this is me" marker (`RelationshipStatus.USER`, wire value `"User"`). -/
inductive RelationshipStatus where
  | blocked
  | blockedOther
  | friend
  | incoming
  | none
  | outgoing
  | user
  deriving DecidableEq, Repr

/-- Raw payload of a user entry, as consumed by `User` (`models/user.py`).
`relationship` is doubly optional: the key may be absent, or present with
a null value (`RelationshipStatus._from_raw_data` maps null to `None`).
Fields of `User` not touched by any claim (`avatar`, `relations`,
`badges`, `status`, `flags`, `bot`, `profile`) are elided; the patch
semantics treats every field independently. -/
structure UserData where
  id : String
  username : Option String := Option.none
  online : Option Bool := Option.none
  relationship : Option (Option RelationshipStatus) := Option.none
  deriving DecidableEq, Repr

/-- The parsed `User` model (`models/user.py`), restricted to the fields
the claims observe. `username` and `online` are required at construction
time; `relationship_status` defaults to `none`. -/
structure User where
  id : String
  username : String
  online : Bool
  relationship_status : Option RelationshipStatus
  deriving DecidableEq, Repr

/-- Construction `User(state, raw_data)`: required fields missing raise
`InitFieldMissing`; `relationship` falls back to its default `None`. -/
def User.fromDict (d : UserData) : Except PyError User :=
  match d.username, d.online with
  | some username, some online =>
    .ok ⟨d.id, username, online, d.relationship.join⟩
  | _, _ => .error .initFieldMissing

/-- Patch `user._update_from_dict(partial_data)`: each field present in
the partial data is re-parsed and assigned, absent fields are left
unchanged (`UpdateFieldMissing` is swallowed per field). -/
def User.updateFromDict (u : User) (d : UserData) : User where
  id := d.id
  username := d.username.getD u.username
  online := d.online.getD u.online
  relationship_status :=
    match d.relationship with
    | some r => r
    | Option.none => u.relationship_status

/-- Raw payload of a role, as consumed by `Role` (`models/server.py`).
The `"id"` key is injected by callers (`Server._roles_parser` sets
`role_data["id"] = role_id`; `ServerRoleUpdateEvent` passes `data`
through unchanged, so there `id` is whatever the partial dict carries).
`permissions` is the two-element wire array, collapsed to a `Nat` pair. -/
structure RoleData where
  id : Option String := Option.none
  name : Option String := Option.none
  permissions : Option (Nat × Nat) := Option.none
  colour : Option String := Option.none
  hoist : Option Bool := Option.none
  rank : Option Int := Option.none
  deriving DecidableEq, Repr

/-- The parsed `Role` model (`models/server.py`). `id`, `name`,
`permissions` and `rank` are required at construction; `colour` defaults
to `None`, `hoist` to `False`. -/
structure Role where
  id : String
  name : String
  server_permissions : Nat
  channel_permissions : Nat
  colour : Option String
  hoist : Bool
  rank : Int
  deriving DecidableEq, Repr

/-- Construction `Role(state, raw_data)`. -/
def Role.fromDict (d : RoleData) : Except PyError Role :=
  match d.id, d.name, d.permissions, d.rank with
  | some id, some name, some perms, some rank =>
    .ok ⟨id, name, perms.1, perms.2, d.colour, d.hoist.getD false, rank⟩
  | _, _, _, _ => .error .initFieldMissing

/-- Patch `role._update_from_dict(partial_data)`. -/
def Role.updateFromDict (r : Role) (d : RoleData) : Role where
  id := d.id.getD r.id
  name := d.name.getD r.name
  server_permissions := (d.permissions.map Prod.fst).getD r.server_permissions
  channel_permissions := (d.permissions.map Prod.snd).getD r.channel_permissions
  colour := match d.colour with
    | some c => some c
    | Option.none => r.colour
  hoist := d.hoist.getD r.hoist
  rank := d.rank.getD r.rank

/-- The body of `Role._update_from_event`: an optional `clear="Colour"`
marker resets the colour, then the partial patch is applied. -/
def Role.updateFromEvent (r : Role) (data : RoleData) (clear : Option String) : Role :=
  let r := if clear = some "Colour" then { r with colour := Option.none } else r
  r.updateFromDict data

/-- Raw payload of a member entry: the composite `"_id"` holds the server
and user IDs (both required; the `ServerMemberJoinEvent` handler builds
exactly this shape).  `nickname` stands for the member's optional fields;
`avatar` and `roles` are elided (no claim observes them). -/
structure MemberData where
  server_id : String
  user_id : String
  nickname : Option String := Option.none
  deriving DecidableEq, Repr

/-- The parsed `Member` model (`models/server.py`); `id` is the user ID. -/
structure Member where
  id : String
  server_id : String
  nickname : Option String
  deriving DecidableEq, Repr

/-- Construction `Member(state, raw_data)`: only the composite `"_id"` is
required, the remaining fields have defaults. -/
def Member.fromDict (d : MemberData) : Member :=
  ⟨d.user_id, d.server_id, d.nickname⟩

/-- Patch `member._update_from_dict(partial_data)`. -/
def Member.updateFromDict (m : Member) (d : MemberData) : Member where
  id := d.user_id
  server_id := d.server_id
  nickname := match d.nickname with
    | some n => some n
    | Option.none => m.nickname

/-- Raw payload of a server entry, as consumed by `Server`
(`models/server.py`).  `roles` is the wire mapping role ID to role data.
Fields not observed by any claim (`nonce`, `categories`,
`system_messages`, `default_permissions`, `icon`, `banner`, `flags`) are
elided; construction of those fields cannot fail on Ready payloads that
satisfy the claims' hypotheses. -/
structure ServerData where
  id : String
  owner : Option String := Option.none
  name : Option String := Option.none
  description : Option String := Option.none
  channels : Option (List String) := Option.none
  roles : Option (List (String × RoleData)) := Option.none
  nsfw : Option Bool := Option.none
  deriving DecidableEq, Repr

/-- The parsed `Server` model (`models/server.py`).  `_members` is the
server's private member map, reset to `{}` at construction via its
`default_factory` (its placeholder key never occurs in payloads, so
patches leave it alone). -/
structure Server where
  id : String
  owner_id : String
  name : String
  description : Option String
  channel_ids : List String
  roles : Dict Role
  nsfw : Bool
  members : Dict Member
  deriving DecidableEq, Repr

/-- The loop of `Server._roles_parser` with its accumulated dict: each
entry of the raw mapping has `role_data["id"] = role_id` injected, is
parsed as a `Role` (which can raise), and is stored under its ID. -/
def Server.parseRolesAux (acc : Dict Role) : List (String × RoleData) → Except PyError (Dict Role)
  | [] => .ok acc
  | (role_id, rd) :: rest =>
    match Role.fromDict { rd with id := some role_id } with
    | .error e => .error e
    | .ok role => Server.parseRolesAux (acc.insert role_id role) rest

/-- The body of `Server._roles_parser`, starting from `roles = {}`. -/
def Server.parseRoles (raw : List (String × RoleData)) : Except PyError (Dict Role) :=
  Server.parseRolesAux Dict.empty raw

/-- Construction `Server(state, raw_data)`. -/
def Server.fromDict (d : ServerData) : Except PyError Server :=
  match d.owner, d.name, d.channels with
  | some owner, some name, some channels =>
    match Server.parseRoles (d.roles.getD []) with
    | .error e => .error e
    | .ok roles =>
      .ok ⟨d.id, owner, name, d.description, channels, roles, d.nsfw.getD false, Dict.empty⟩
  | _, _, _ => .error .initFieldMissing

/-- Patch `server._update_from_dict(partial_data)`; re-parsing a present
`roles` field can raise, which propagates (only `UpdateFieldMissing` is
swallowed). -/
def Server.updateFromDict (s : Server) (d : ServerData) : Except PyError Server :=
  match (match d.roles with
         | some rs => Server.parseRoles rs
         | Option.none => .ok s.roles) with
  | .error e => .error e
  | .ok roles => .ok { s with
    id := d.id
    owner_id := d.owner.getD s.owner_id
    name := d.name.getD s.name
    description := match d.description with
      | some de => some de
      | Option.none => s.description
    channel_ids := d.channels.getD s.channel_ids
    roles := roles
    nsfw := d.nsfw.getD s.nsfw }

/-- Raw payload of a channel entry / channel patch, covering the union of
keys consumed by the channel variants in `models/channel.py`.  The
attachment value under `"icon"` is collapsed to its raw payload; the
permission fields (`permissions`, `default_permissions`,
`role_permissions`) are elided, as no claim observes them and their
parsing cannot fail. -/
structure ChannelData where
  id : String
  channel_type : String
  user : Option String := Option.none
  active : Option Bool := Option.none
  recipients : Option (List String) := Option.none
  name : Option String := Option.none
  owner : Option String := Option.none
  description : Option String := Option.none
  icon : Option String := Option.none
  last_message_id : Option String := Option.none
  server : Option String := Option.none
  nsfw : Option Bool := Option.none
  archived : Option Bool := Option.none
  deriving DecidableEq, Repr

/-- `SavedMessagesChannel` (`models/channel.py`). -/
structure SavedMessagesChannel where
  id : String
  user_id : String
  deriving DecidableEq, Repr

/-- `DMChannel` (`models/channel.py`). -/
structure DMChannel where
  id : String
  active : Bool
  recipient_ids : List String
  last_message_id : Option String
  deriving DecidableEq, Repr

/-- `GroupChannel` (`models/channel.py`); `permissions` elided. -/
structure GroupChannel where
  id : String
  recipient_ids : List String
  name : String
  owner_id : String
  description : Option String
  last_message_id : Option String
  icon : Option String
  nsfw : Bool
  deriving DecidableEq, Repr

/-- `TextChannel` (`models/channel.py`); permission overrides elided. -/
structure TextChannel where
  id : String
  server_id : String
  name : String
  description : Option String
  icon : Option String
  last_message_id : Option String
  nsfw : Bool
  archived : Bool
  deriving DecidableEq, Repr

/-- `VoiceChannel` (`models/channel.py`); permission overrides elided. -/
structure VoiceChannel where
  id : String
  server_id : String
  name : String
  description : Option String
  icon : Option String
  nsfw : Bool
  deriving DecidableEq, Repr

/-- `_UnknownChannel` (`models/channel.py`): only the base fields. -/
structure UnknownChannel where
  id : String
  channel_type : String
  deriving DecidableEq, Repr

/-- The tagged union of channel variants (class hierarchy rooted at
`Channel`). -/
inductive Channel where
  | savedMessages (c : SavedMessagesChannel)
  | dm (c : DMChannel)
  | group (c : GroupChannel)
  | text (c : TextChannel)
  | voice (c : VoiceChannel)
  | unknown (c : UnknownChannel)
  deriving DecidableEq, Repr

/-- The dispatch of `Channel._from_dict` on `raw_data["channel_type"]`
through `CHANNEL_TYPES`, followed by the variant's construction (missing
required fields raise `InitFieldMissing`). -/
def Channel.fromDict (d : ChannelData) : Except PyError Channel :=
  if d.channel_type = "SavedMessages" then
    match d.user with
    | some user => .ok (.savedMessages ⟨d.id, user⟩)
    | Option.none => .error .initFieldMissing
  else if d.channel_type = "DirectMessage" then
    match d.active, d.recipients with
    | some active, some recipients =>
      .ok (.dm ⟨d.id, active, recipients, d.last_message_id⟩)
    | _, _ => .error .initFieldMissing
  else if d.channel_type = "Group" then
    match d.recipients, d.name, d.owner with
    | some recipients, some name, some owner =>
      .ok (.group ⟨d.id, recipients, name, owner, d.description,
        d.last_message_id, d.icon, d.nsfw.getD false⟩)
    | _, _, _ => .error .initFieldMissing
  else if d.channel_type = "TextChannel" then
    match d.server, d.name with
    | some server, some name =>
      .ok (.text ⟨d.id, server, name, d.description, d.icon,
        d.last_message_id, d.nsfw.getD false, d.archived.getD false⟩)
    | _, _ => .error .initFieldMissing
  else if d.channel_type = "VoiceChannel" then
    match d.server, d.name with
    | some server, some name =>
      .ok (.voice ⟨d.id, server, name, d.description, d.icon, d.nsfw.getD false⟩)
    | _, _ => .error .initFieldMissing
  else
    .ok (.unknown ⟨d.id, d.channel_type⟩)

/-- Patch `channel._update_from_dict(partial_data)`, per variant (the
cached object's class fixes which fields are parsed). -/
def Channel.updateFromDict (ch : Channel) (d : ChannelData) : Channel :=
  match ch with
  | .savedMessages c => .savedMessages
    { id := d.id, user_id := d.user.getD c.user_id }
  | .dm c => .dm
    { id := d.id
      active := d.active.getD c.active
      recipient_ids := d.recipients.getD c.recipient_ids
      last_message_id := match d.last_message_id with
        | some m => some m
        | Option.none => c.last_message_id }
  | .group c => .group
    { id := d.id
      recipient_ids := d.recipients.getD c.recipient_ids
      name := d.name.getD c.name
      owner_id := d.owner.getD c.owner_id
      description := match d.description with
        | some de => some de
        | Option.none => c.description
      last_message_id := match d.last_message_id with
        | some m => some m
        | Option.none => c.last_message_id
      icon := match d.icon with
        | some i => some i
        | Option.none => c.icon
      nsfw := d.nsfw.getD c.nsfw }
  | .text c => .text
    { id := d.id
      server_id := d.server.getD c.server_id
      name := d.name.getD c.name
      description := match d.description with
        | some de => some de
        | Option.none => c.description
      icon := match d.icon with
        | some i => some i
        | Option.none => c.icon
      last_message_id := match d.last_message_id with
        | some m => some m
        | Option.none => c.last_message_id
      nsfw := d.nsfw.getD c.nsfw
      archived := d.archived.getD c.archived }
  | .voice c => .voice
    { id := d.id
      server_id := d.server.getD c.server_id
      name := d.name.getD c.name
      description := match d.description with
        | some de => some de
        | Option.none => c.description
      icon := match d.icon with
        | some i => some i
        | Option.none => c.icon
      nsfw := d.nsfw.getD c.nsfw }
  | .unknown _ => .unknown { id := d.id, channel_type := d.channel_type }

/-- Projection to the channel ID. -/
def Channel.cid : Channel → String
  | .savedMessages c => c.id
  | .dm c => c.id
  | .group c => c.id
  | .text c => c.id
  | .voice c => c.id
  | .unknown c => c.id

/-- `getattr(channel, "server_id", None)`: only text and voice channels
carry a `server_id` attribute. -/
def Channel.serverId? : Channel → Option String
  | .text c => some c.server_id
  | .voice c => some c.server_id
  | _ => Option.none

/-- The `last_message_id` attribute, for the variants that have one
(direct-message, group and text channels); `none` otherwise. -/
def Channel.lastMessageId? : Channel → Option (Option String)
  | .dm c => some c.last_message_id
  | .group c => some c.last_message_id
  | .text c => some c.last_message_id
  | _ => Option.none

/-- The `icon` attribute, for the variants that have one. -/
def Channel.icon? : Channel → Option (Option String)
  | .group c => some c.icon
  | .text c => some c.icon
  | .voice c => some c.icon
  | _ => Option.none

/-- The `description` attribute, for the variants that have one. -/
def Channel.description? : Channel → Option (Option String)
  | .group c => some c.description
  | .text c => some c.description
  | .voice c => some c.description
  | _ => Option.none

/-- True for the group/text/voice variants, whose
`_update_from_event` handles the `clear` marker. -/
def Channel.handlesClear : Channel → Bool
  | .group _ => true
  | .text _ => true
  | .voice _ => true
  | _ => false

/-- The raw `"content"` field of a message: either plain text (a string)
or a system-message record (`models/message.py`). -/
inductive MessageContent where
  | text (s : String)
  | system (type : String)
  deriving DecidableEq, Repr

/-- Raw payload of a message, restricted to the required fields of
`Message` (`models/message.py`); the optional fields (`nonce`,
`attachments`, `edited`, `embeds`, `mentions`, `replies`) are elided. -/
structure MessageData where
  id : String
  channel : String
  author : String
  content : MessageContent
  deriving DecidableEq, Repr

/-- The parsed `Message` snapshot, restricted to the fields the claims
observe.  `Message._content_parser` keeps the content only when it is a
string; `Message._system_message_parser` keeps it only when it is not. -/
structure Message where
  id : String
  channel_id : String
  author_id : String
  content : Option String
  system_message : Option String
  deriving DecidableEq, Repr

/-- Construction `Message(state, raw_data)`. -/
def Message.fromDict (d : MessageData) : Message where
  id := d.id
  channel_id := d.channel
  author_id := d.author
  content := match d.content with
    | .text s => some s
    | .system _ => Option.none
  system_message := match d.content with
    | .text _ => Option.none
    | .system ty => some ty

/-- The `State` store (`state.py`) plus the gateway's `authenticated`
attribute, which the event handlers reach through `state.gateway`.
`user` is an attribute that is unset (`AttributeError` on access) until
`ReadyEvent` assigns it, modelled as an `Option`.  `ready` models
`state.ready` (an `asyncio.Event`).  The `authenticated` attribute is
never initialized by `GatewayClient.__init__`: it is unset until
`AuthenticatedEvent._gateway_handle` assigns `True`, and reading it
before that raises `AttributeError` — modelled, like the unset
`state.user`, as an `Option` with `none` for "attribute not set". -/
structure State where
  user : Option User := Option.none
  channels : Dict Channel := Dict.empty
  servers : Dict Server := Dict.empty
  users : Dict User := Dict.empty
  ready : Bool := false
  authenticated : Option Bool := Option.none
  deriving DecidableEq, Repr

/-- `ErrorEvent._gateway_handle` (`events.py`): `"AlreadyAuthenticated"`
is only logged; otherwise the guard reads
`state.gateway.authenticated`, which raises `AttributeError` while the
attribute is unset (nothing initializes it; only `AuthenticatedEvent`
ever writes it, and only to `True`); when it is set and truthy the
late error is only logged; the typed authentication failures below the
guard are reached only from a set-but-false value, which no execution
of the staged source produces. -/
def errorEventHandle (st : State) (error : String) : Except PyError Unit :=
  if error = "AlreadyAuthenticated" then .ok ()
  else
    match st.authenticated with
    | Option.none => .error .attributeError
    | some authenticated =>
      if authenticated then .ok ()
      else if error = "InvalidSession" then .error .invalidCredentials
      else if error = "OnboardingNotFinished" then .error .onboardingNotFinished
      else .error (.authenticationError error)

/-- `AuthenticatedEvent._gateway_handle` (`events.py`): the only write
to the gateway's `authenticated` attribute anywhere in the source. -/
def authenticatedEventHandle (st : State) : State :=
  { st with authenticated := some true }

/-- A raw `Ready` payload (`ReadyEvent._gateway_handle` reads the
`servers`, `channels`, `users` and `members` lists). -/
structure ReadyPayload where
  servers : List ServerData := []
  channels : List ChannelData := []
  users : List UserData := []
  members : List MemberData := []
  deriving DecidableEq, Repr

/-- The `servers` loop of `ReadyEvent._gateway_handle`: a server already
cached under its ID is patched in place, its member map stashed in
`old_members` and reset; an unknown ID constructs a fresh `Server`.  The
new dict replaces `state.servers` wholesale. -/
def readyBuildServers (st : State) :
    List ServerData → Dict (Dict Member) → Dict Server →
    Except PyError (Dict (Dict Member) × Dict Server)
  | [], oldMembers, acc => .ok (oldMembers, acc)
  | sd :: rest, oldMembers, acc =>
    match st.servers.get? sd.id with
    | Option.none =>
      match Server.fromDict sd with
      | .error e => .error e
      | .ok server => readyBuildServers st rest oldMembers (acc.insert sd.id server)
    | some server =>
      match server.updateFromDict sd with
      | .error e => .error e
      | .ok server =>
        readyBuildServers st rest (oldMembers.insert sd.id server.members)
          (acc.insert sd.id { server with members := Dict.empty })

/-- The `channels` loop of `ReadyEvent._gateway_handle`. -/
def readyBuildChannels (st : State) :
    List ChannelData → Dict Channel → Except PyError (Dict Channel)
  | [], acc => .ok acc
  | cd :: rest, acc =>
    match st.channels.get? cd.id with
    | Option.none =>
      match Channel.fromDict cd with
      | .error e => .error e
      | .ok channel => readyBuildChannels st rest (acc.insert cd.id channel)
    | some channel =>
      readyBuildChannels st rest (acc.insert cd.id (channel.updateFromDict cd))

/-- The `users` loop of `ReadyEvent._gateway_handle`, also tracking the
running value of `state.user`: after storing each user, `state.user` is
reassigned whenever that user's `relationship_status` is the
`RelationshipStatus.USER` marker (the last such user wins). -/
def readyBuildUsers (st : State) :
    List UserData → Option User → Dict User →
    Except PyError (Option User × Dict User)
  | [], stateUser, acc => .ok (stateUser, acc)
  | ud :: rest, stateUser, acc =>
    match (match st.users.get? ud.id with
           | Option.none => User.fromDict ud
           | some user => .ok (user.updateFromDict ud)) with
    | .error e => .error e
    | .ok user =>
      readyBuildUsers st rest
        (if user.relationship_status = some .user then some user else stateUser)
        (acc.insert ud.id user)

/-- The `members` loop of `ReadyEvent._gateway_handle`: each member is
reused from `old_members` (and patched) or freshly constructed, then
attached into its owning server's member map inside the new servers
dict; a member whose server is not in that dict raises `KeyError`. -/
def readyAttachMembers (oldMembers : Dict (Dict Member)) :
    List MemberData → Dict Server → Except PyError (Dict Server)
  | [], servers => .ok servers
  | md :: rest, servers =>
    let member := match (oldMembers.get? md.server_id).bind (fun ms => ms.get? md.user_id) with
      | Option.none => Member.fromDict md
      | some m => m.updateFromDict md
    match servers.get? member.server_id with
    | Option.none => .error .keyError
    | some server =>
      readyAttachMembers oldMembers rest
        (servers.insert member.server_id
          { server with members := server.members.insert member.id member })

/-- `ReadyEvent._gateway_handle` (`events.py`): wholesale replacement of
`state.servers`, `state.channels` and `state.users` from the payload
(reusing and patching entities already cached under the same ID),
re-derivation of `state.user`, re-attachment of members, and finally
`state.ready.set()`. -/
def readyEventHandle (st : State) (p : ReadyPayload) : Except PyError State :=
  match readyBuildServers st p.servers Dict.empty Dict.empty with
  | .error e => .error e
  | .ok (oldMembers, servers) =>
    let st := { st with servers := servers }
    match readyBuildChannels st p.channels Dict.empty with
    | .error e => .error e
    | .ok channels =>
      let st := { st with channels := channels }
      match readyBuildUsers st p.users st.user Dict.empty with
      | .error e => .error e
      | .ok (stateUser, users) =>
        let st := { st with user := stateUser, users := users }
        match readyAttachMembers oldMembers p.members st.servers with
        | .error e => .error e
        | .ok servers => .ok { st with servers := servers, ready := true }

/-- Dispatch of `channel._update_from_event` for a `MessageEvent`: the
direct-message, group and text variants advance `last_message_id` to the
new message's ID exactly when `message.content is not None` (i.e. the raw
content was a string); the other variants ignore the event. -/
def Channel.updateFromMessageEvent (ch : Channel) (m : Message) : Channel :=
  match ch with
  | .dm c =>
    if m.content.isSome then .dm { c with last_message_id := some m.id } else .dm c
  | .group c =>
    if m.content.isSome then .group { c with last_message_id := some m.id } else .group c
  | .text c =>
    if m.content.isSome then .text { c with last_message_id := some m.id } else .text c
  | ch => ch

/-- Dispatch of `channel._update_from_event` for a `ChannelUpdateEvent`:
the group, text and voice variants first honour a `clear` marker
(`"Icon"` or, failing that, `"Description"`) and then apply the partial
patch; the remaining variants only apply the patch (the base
`Channel._update_from_event` / the `DMChannel` `else` branch). -/
def Channel.updateFromChannelUpdateEvent (ch : Channel) (data : ChannelData)
    (clear : Option String) : Channel :=
  match ch with
  | .group c =>
    let c := if clear = some "Icon" then { c with icon := Option.none }
      else if clear = some "Description" then { c with description := Option.none }
      else c
    Channel.updateFromDict (.group c) data
  | .text c =>
    let c := if clear = some "Icon" then { c with icon := Option.none }
      else if clear = some "Description" then { c with description := Option.none }
      else c
    Channel.updateFromDict (.text c) data
  | .voice c =>
    let c := if clear = some "Icon" then { c with icon := Option.none }
      else if clear = some "Description" then { c with description := Option.none }
      else c
    Channel.updateFromDict (.voice c) data
  | ch => ch.updateFromDict data

/-- `MessageEvent._gateway_handle` (`events.py`): build the `Message`
snapshot, look up its channel (`KeyError` if not cached) and let the
channel update itself from the event. -/
def messageEventHandle (st : State) (d : MessageData) : Except PyError State :=
  let m := Message.fromDict d
  match st.channels.get? m.channel_id with
  | Option.none => .error .keyError
  | some ch =>
    .ok { st with channels := st.channels.insert m.channel_id (ch.updateFromMessageEvent m) }

/-- `ChannelUpdateEvent._gateway_handle` (`events.py`): look up the
channel (`KeyError` if not cached) and let it update itself. -/
def channelUpdateEventHandle (st : State) (channel_id : String) (data : ChannelData)
    (clear : Option String) : Except PyError State :=
  match st.channels.get? channel_id with
  | Option.none => .error .keyError
  | some ch =>
    .ok { st with
      channels := st.channels.insert channel_id (ch.updateFromChannelUpdateEvent data clear) }

/-- `ChannelDeleteEvent._gateway_handle` (`events.py`):
`state.channels.pop(channel_id, None)` (no-op when absent), then, when a
channel carrying a `server_id` was popped, remove the channel ID from the
owning server's `channel_ids` list (`KeyError` if that server is not
cached, `ValueError` if the list does not contain the ID). -/
def channelDeleteEventHandle (st : State) (channel_id : String) : Except PyError State :=
  let channel := st.channels.get? channel_id
  let st' := { st with channels := st.channels.erase channel_id }
  match channel.bind Channel.serverId? with
  | Option.none => .ok st'
  | some server_id =>
    match st'.servers.get? server_id with
    | Option.none => .error .keyError
    | some server =>
      if channel_id ∈ server.channel_ids then
        .ok { st' with
          servers := st'.servers.insert server_id
            { server with channel_ids := server.channel_ids.erase channel_id } }
      else .error .valueError

/-- `ServerDeleteEvent._gateway_handle` (`events.py`):
`state.servers.pop(server_id)` — no default, so an absent server ID
raises `KeyError`. -/
def serverDeleteEventHandle (st : State) (server_id : String) : Except PyError State :=
  match st.servers.get? server_id with
  | Option.none => .error .keyError
  | some _ => .ok { st with servers := st.servers.erase server_id }

/-- `ServerMemberLeaveEvent._gateway_handle` (`events.py`): look up the
server (`KeyError` if not cached), pop the member with a `None` default
(no-op when absent), and when the leaving user is the authenticated user
(`state.user`, `AttributeError` if still unset) delete the whole server
entry. -/
def serverMemberLeaveEventHandle (st : State) (server_id user_id : String) :
    Except PyError State :=
  match st.servers.get? server_id with
  | Option.none => .error .keyError
  | some server =>
    let server := { server with members := server.members.erase user_id }
    let st := { st with servers := st.servers.insert server_id server }
    match st.user with
    | Option.none => .error .attributeError
    | some u =>
      if user_id = u.id then .ok { st with servers := st.servers.erase server_id }
      else .ok st

/-- `ServerRoleUpdateEvent._gateway_handle` (`events.py`): look up the
server (`KeyError` if not cached); a `KeyError` on the role lookup is
caught and a fresh `Role` is built from the event's `data` and inserted
(`new = True`); otherwise the cached role is patched in place via
`Role._update_from_event` (`new = False`).  The returned `Bool` is the
event's `new` attribute. -/
def serverRoleUpdateEventHandle (st : State) (server_id role_id : String)
    (data : RoleData) (clear : Option String) : Except PyError (State × Bool) :=
  match st.servers.get? server_id with
  | Option.none => .error .keyError
  | some server =>
    match server.roles.get? role_id with
    | Option.none =>
      match Role.fromDict data with
      | .error e => .error e
      | .ok role => .ok ({ st with
        servers := st.servers.insert server_id
          { server with roles := server.roles.insert role_id role } }, true)
    | some role =>
      let role := role.updateFromEvent data clear
      .ok ({ st with
        servers := st.servers.insert server_id
          { server with roles := server.roles.insert role_id role } }, false)

/-- `ServerRoleDeleteEvent._gateway_handle` (`events.py`): look up the
server (`KeyError` if not cached), then `server.roles.pop(role_id)` — no
default, so an absent role ID raises `KeyError`. -/
def serverRoleDeleteEventHandle (st : State) (server_id role_id : String) :
    Except PyError State :=
  match st.servers.get? server_id with
  | Option.none => .error .keyError
  | some server =>
    match server.roles.get? role_id with
    | Option.none => .error .keyError
    | some _ =>
      .ok { st with
        servers := st.servers.insert server_id
          { server with roles := server.roles.erase role_id } }

/-- The event class hierarchy of `events.py`: the base `Event` class and
its concrete subclasses (every concrete event class derives directly from
`Event`; `unknownEvent` is the `_UnknownEvent` fallback). -/
inductive EventClass where
  | event
  | errorEvent
  | authenticatedEvent
  | readyEvent
  | messageEvent
  | messageUpdateEvent
  | messageDeleteEvent
  | channelCreateEvent
  | channelUpdateEvent
  | channelDeleteEvent
  | channelGroupJoinEvent
  | channelGroupLeaveEvent
  | channelStartTypingEvent
  | channelStopTypingEvent
  | channelAckEvent
  | serverUpdateEvent
  | serverDeleteEvent
  | serverMemberUpdateEvent
  | serverMemberJoinEvent
  | serverMemberLeaveEvent
  | serverRoleUpdateEvent
  | serverRoleDeleteEvent
  | userUpdateEvent
  | userRelationshipEvent
  | unknownEvent
  deriving DecidableEq, Repr

/-- The static `EVENTS` registry at the bottom of `events.py`, mapping
the wire `type` discriminant to the event class. -/
def EVENTS : String → Option EventClass
  | "Error" => some .errorEvent
  | "Authenticated" => some .authenticatedEvent
  | "Ready" => some .readyEvent
  | "Message" => some .messageEvent
  | "MessageUpdate" => some .messageUpdateEvent
  | "MessageDelete" => some .messageDeleteEvent
  | "ChannelCreate" => some .channelCreateEvent
  | "ChannelUpdate" => some .channelUpdateEvent
  | "ChannelDelete" => some .channelDeleteEvent
  | "ChannelGroupJoin" => some .channelGroupJoinEvent
  | "ChannelGroupLeave" => some .channelGroupLeaveEvent
  | "ChannelStartTyping" => some .channelStartTypingEvent
  | "ChannelStopTyping" => some .channelStopTypingEvent
  | "ChannelAck" => some .channelAckEvent
  | "ServerUpdate" => some .serverUpdateEvent
  | "ServerDelete" => some .serverDeleteEvent
  | "ServerMemberUpdate" => some .serverMemberUpdateEvent
  | "ServerMemberJoin" => some .serverMemberJoinEvent
  | "ServerMemberLeave" => some .serverMemberLeaveEvent
  | "ServerRoleUpdate" => some .serverRoleUpdateEvent
  | "ServerRoleDelete" => some .serverRoleDeleteEvent
  | "UserUpdate" => some .userUpdateEvent
  | "UserRelationship" => some .userRelationshipEvent
  | _ => Option.none

/-- The class-selection step of `Event._from_dict`:
`EVENTS.get(event_type, _UnknownEvent)`. -/
def eventClassOfType (ty : String) : EventClass :=
  (EVENTS ty).getD .unknownEvent

/-- A Python class appearing in an event instance's method resolution
order: `object`, or a class from the `Event` hierarchy. -/
inductive PyClass where
  | obj
  | cls (c : EventClass)
  deriving DecidableEq, Repr

/-- The method resolution order `cls.__mro__` of an event class: the
class itself, then `Event` (for proper subclasses), then `object`. -/
def eventMro : EventClass → List PyClass
  | .event => [.cls .event, .obj]
  | c => [.cls c, .cls .event, .obj]

/-- The classes `EventHandler.dispatch` walks:
`itertools.islice(reversed(event.__class__.__mro__), 1, None)` — the
reversed MRO with `object` (its first element) skipped. -/
def dispatchClasses (c : EventClass) : List PyClass :=
  ((eventMro c).reverse).drop 1

/-- A listener registry: `EventHandler.listeners` flattened to
registration pairs (the Python dict keys classes to per-class listener
lists; a flat pair list with per-class filtering preserves each per-class
list).  Listeners are identified by numeric tokens. -/
abbrev ListenerReg := List (EventClass × Nat)

/-- `EventHandler.dispatch` (`event_handler.py`): for every class in the
reversed-MRO walk, schedule every listener registered for exactly that
class.  Returns the scheduled listener tokens.  (`add_listener` only ever
registers `Event` subclasses, so no listener is keyed by `object`.) -/
def EventHandler.dispatch (reg : ListenerReg) (c : EventClass) : List Nat :=
  (dispatchClasses c).flatMap fun k =>
    match k with
    | .obj => []
    | .cls ec => (reg.filter (fun p => p.1 = ec)).map Prod.snd

/-- The raw inbound frames this development models, already shaped as the
payloads the corresponding event constructors read (the event variants
with no `_gateway_handle` override — typing, acks, message updates,
etc. — behave like `unknown` for cache purposes and are not enumerated).
`unknown ty` stands for a frame whose `type` discriminant is the
unregistered string `ty`. -/
inductive RawEvent where
  | error (error : String)
  | authenticated
  | ready (p : ReadyPayload)
  | message (d : MessageData)
  | channelUpdate (channel_id : String) (data : ChannelData) (clear : Option String)
  | channelDelete (channel_id : String)
  | serverDelete (server_id : String)
  | serverMemberLeave (server_id user_id : String)
  | serverRoleUpdate (server_id role_id : String) (data : RoleData) (clear : Option String)
  | serverRoleDelete (server_id role_id : String)
  | unknown (ty : String)
  deriving DecidableEq, Repr

/-- The event class `Event._from_dict` selects for each modelled frame. -/
def RawEvent.eventClass : RawEvent → EventClass
  | .error _ => .errorEvent
  | .authenticated => .authenticatedEvent
  | .ready _ => .readyEvent
  | .message _ => .messageEvent
  | .channelUpdate _ _ _ => .channelUpdateEvent
  | .channelDelete _ => .channelDeleteEvent
  | .serverDelete _ => .serverDeleteEvent
  | .serverMemberLeave _ _ => .serverMemberLeaveEvent
  | .serverRoleUpdate _ _ _ _ => .serverRoleUpdateEvent
  | .serverRoleDelete _ _ => .serverRoleDeleteEvent
  | .unknown ty => eventClassOfType ty

/-- `await event._gateway_handle()` for each modelled frame.  The base
`Event._gateway_handle` — inherited by `_UnknownEvent` — is `pass`, so an
unknown frame leaves the state untouched. -/
def Event.gatewayHandle (st : State) : RawEvent → Except PyError State
  | .error e => (errorEventHandle st e).map (fun _ => st)
  | .authenticated => .ok (authenticatedEventHandle st)
  | .ready p => readyEventHandle st p
  | .message d => messageEventHandle st d
  | .channelUpdate cid data clear => channelUpdateEventHandle st cid data clear
  | .channelDelete cid => channelDeleteEventHandle st cid
  | .serverDelete sid => serverDeleteEventHandle st sid
  | .serverMemberLeave sid uid => serverMemberLeaveEventHandle st sid uid
  | .serverRoleUpdate sid rid data clear =>
    (serverRoleUpdateEventHandle st sid rid data clear).map Prod.fst
  | .serverRoleDelete sid rid => serverRoleDeleteEventHandle st sid rid
  | .unknown _ => .ok st

/-- The two ways one iteration of the receive loop can end for a decoded
frame: the event was applied and handed to the dispatcher, or an
exception from decode/apply was caught, logged, and the loop `continue`d
without dispatching. -/
inductive PollOutcome where
  | dispatched (c : EventClass) (st : State)
  | swallowed (st : State)
  deriving DecidableEq, Repr

/-- The body of `GatewayClient.poll_loop` (`gateway.py`) for one inbound
data frame: `Event._from_dict` + `event._gateway_handle()` run inside
`try/except Exception`, so ANY exception — including the typed
authentication failures — is logged and the loop continues with the
state as the interrupted handler left it (the handlers modelled here
make no observable mutation before their raising point);
on success the event is dispatched.  (Only a transport-level
`WSMsgType.ERROR` frame, outside this model, can end the loop by
raising.) -/
def GatewayClient.pollStep (st : State) (re : RawEvent) : PollOutcome :=
  match Event.gatewayHandle st re with
  | .ok st' => .dispatched re.eventClass st'
  | .error _ => .swallowed st

/-- `MaxAttemptsReached` + `ExponentialBackoff` state (`backoff.py`);
floats are modelled by `Rat`. -/
structure ExponentialBackoff where
  max_attempts : Option Nat := some 5
  max_delay : Rat := 64
  attempt : Nat := 0
  exponent : Nat := 0
  deriving DecidableEq, Repr

/-- The constructor `ExponentialBackoff(max_attempts=..., max_delay=...)`. -/
def ExponentialBackoff.init (max_attempts : Option Nat) (max_delay : Rat) :
    ExponentialBackoff :=
  { max_attempts := max_attempts, max_delay := max_delay, attempt := 0, exponent := 0 }

/-- The three ways `ExponentialBackoff.get_delay` can return: `None` on
the free first attempt, a delay value, or the `MaxAttemptsReached`
exception (raised before any attribute is mutated). -/
inductive BackoffResult where
  | free (b : ExponentialBackoff)
  | delay (d : Rat) (b : ExponentialBackoff)
  | maxAttemptsReached (b : ExponentialBackoff)
  deriving DecidableEq, Repr

/-- `ExponentialBackoff.get_delay` (`backoff.py`), with the value of
`random.random()` passed in as the jitter `r ∈ [0, 1)`.  `BASE = 2`:
the delay before jitter is `BASE ** exponent`, capped at `max_delay`
(the exponent only grows while the cap is not hit). -/
def ExponentialBackoff.getDelay (b : ExponentialBackoff) (r : Rat) : BackoffResult :=
  if b.attempt = 0 then .free { b with attempt := b.attempt + 1 }
  else if b.max_attempts = some b.attempt then .maxAttemptsReached b
  else
    let delay : Rat := (2 : Rat) ^ b.exponent
    let b := { b with attempt := b.attempt + 1 }
    if b.max_delay ≤ delay then .delay (b.max_delay + r) b
    else .delay (delay + r) { b with exponent := b.exponent + 1 }

/-- `ExponentialBackoff.reset` (`backoff.py`). -/
def ExponentialBackoff.reset (b : ExponentialBackoff) : ExponentialBackoff :=
  { b with attempt := 0, exponent := 0 }

/-! ## Shared lemmas about the dict model -/

theorem Dict.get?_insert {α : Type} (d : Dict α) (k key : String) (v : α) :
    (d.insert k v).get? key = if k = key then some v else d.get? key := by
  induction d with
  | nil => simp [Dict.insert, Dict.get?]
  | cons p d ih =>
    obtain ⟨k0, v0⟩ := p
    by_cases h0 : k0 = k
    · subst h0
      by_cases h1 : k0 = key <;> simp [Dict.insert, Dict.get?, h1]
    · by_cases h1 : k0 = key
      · subst h1
        have hk : k ≠ k0 := fun h => h0 h.symm
        simp [Dict.insert, Dict.get?, h0, hk]
      · simp [Dict.insert, Dict.get?, h0, h1, ih]

theorem Dict.get?_erase {α : Type} (d : Dict α) (k key : String) :
    (d.erase k).get? key = if k = key then Option.none else d.get? key := by
  induction d with
  | nil => simp [Dict.erase, Dict.get?]
  | cons p d ih =>
    obtain ⟨k0, v0⟩ := p
    by_cases h0 : k0 = k
    · subst h0
      by_cases h1 : k0 = key
      · subst h1
        simp [Dict.erase, List.filter] at ih ⊢
        simpa [Dict.erase] using ih
      · simp [Dict.erase, List.filter, Dict.get?, h1] at ih ⊢
        simpa [Dict.erase] using ih
    · have : (Dict.erase ((k0, v0) :: d) k) = (k0, v0) :: Dict.erase d k := by
        simp [Dict.erase, List.filter, h0]
      rw [this]
      by_cases h1 : k0 = key
      · subst h1
        have hk : k ≠ k0 := fun h => h0 h.symm
        simp [Dict.get?, hk]
      · simp [Dict.get?, h0, h1, ih]

theorem Dict.erase_of_get?_eq_none {α : Type} (d : Dict α) (k : String)
    (h : d.get? k = Option.none) : d.erase k = d := by
  induction d with
  | nil => simp [Dict.erase]
  | cons p d ih =>
    obtain ⟨k0, v0⟩ := p
    simp only [Dict.get?] at h
    by_cases h0 : k0 = k
    · simp [h0] at h
    · simp only [h0, if_false] at h
      simp [Dict.erase, List.filter, h0, ih h, Dict.erase] at ih ⊢
      simpa [Dict.erase] using ih h

theorem Dict.insert_of_get?_eq_some {α : Type} (d : Dict α) (k : String) (v : α)
    (h : d.get? k = some v) : d.insert k v = d := by
  induction d with
  | nil => simp [Dict.get?] at h
  | cons p d ih =>
    obtain ⟨k0, v0⟩ := p
    simp only [Dict.get?] at h
    by_cases h0 : k0 = k
    · simp only [h0, if_true, Option.some.injEq] at h
      simp [Dict.insert, h0, h]
    · simp only [h0, if_false] at h
      simp [Dict.insert, h0, ih h]

theorem Dict.contains_insert {α : Type} (d : Dict α) (k a : String) (v : α) :
    (d.insert k v).contains a = true ↔ (a = k ∨ d.contains a = true) := by
  have hk : k = a ↔ a = k := ⟨Eq.symm, Eq.symm⟩
  simp [Dict.contains, Dict.get?_insert, hk]
  by_cases h : a = k <;> simp [h]

/-! ## Claims about the reconnect backoff (`backoff.py`) -/

/-- C3, counterexample: with the default configuration, the fifth call to
`get_delay` does NOT signal exhaustion — after the free first call and
the delays in `[1,2)`, `[2,3)` and `[4,5)` (all shown here with jitter
`0`), the fifth call still returns a delay (`8`, i.e. a value in
`[8,9)`); only the sixth call raises `MaxAttemptsReached`. -/
theorem backoff_default_fifth_call_returns_delay_eight :
    ExponentialBackoff.getDelay {} 0 = .free ⟨some 5, 64, 1, 0⟩ ∧
    ExponentialBackoff.getDelay ⟨some 5, 64, 1, 0⟩ 0 = .delay 1 ⟨some 5, 64, 2, 1⟩ ∧
    ExponentialBackoff.getDelay ⟨some 5, 64, 2, 1⟩ 0 = .delay 2 ⟨some 5, 64, 3, 2⟩ ∧
    ExponentialBackoff.getDelay ⟨some 5, 64, 3, 2⟩ 0 = .delay 4 ⟨some 5, 64, 4, 3⟩ ∧
    ExponentialBackoff.getDelay ⟨some 5, 64, 4, 3⟩ 0 = .delay 8 ⟨some 5, 64, 5, 4⟩ ∧
    ExponentialBackoff.getDelay ⟨some 5, 64, 5, 4⟩ 0 =
      .maxAttemptsReached ⟨some 5, 64, 5, 4⟩ := by
  refine ⟨?_, ?_, ?_, ?_, ?_, ?_⟩ <;> norm_num [ExponentialBackoff.getDelay]

/-- C3 (amended): with the default configuration
(`max_attempts=5`, `max_delay=64.0`), successive `get_delay` calls yield
`None`, then a value in `[1,2)`, then `[2,3)`, then `[4,5)`, then
`[8,9)`, and the sixth call signals exhaustion via `MaxAttemptsReached`
(4 delay-producing attempts after the free first call). -/
theorem backoff_default_sequence (r1 r2 r3 r4 r5 : Rat)
    (h1 : 0 ≤ r1 ∧ r1 < 1) (h2 : 0 ≤ r2 ∧ r2 < 1) (h3 : 0 ≤ r3 ∧ r3 < 1)
    (h4 : 0 ≤ r4 ∧ r4 < 1) :
    ExponentialBackoff.getDelay (ExponentialBackoff.init (some 5) 64) r1 =
      .free ⟨some 5, 64, 1, 0⟩ ∧
    (ExponentialBackoff.getDelay ⟨some 5, 64, 1, 0⟩ r1 =
        .delay (1 + r1) ⟨some 5, 64, 2, 1⟩ ∧ 1 ≤ 1 + r1 ∧ 1 + r1 < 2) ∧
    (ExponentialBackoff.getDelay ⟨some 5, 64, 2, 1⟩ r2 =
        .delay (2 + r2) ⟨some 5, 64, 3, 2⟩ ∧ 2 ≤ 2 + r2 ∧ 2 + r2 < 3) ∧
    (ExponentialBackoff.getDelay ⟨some 5, 64, 3, 2⟩ r3 =
        .delay (4 + r3) ⟨some 5, 64, 4, 3⟩ ∧ 4 ≤ 4 + r3 ∧ 4 + r3 < 5) ∧
    (ExponentialBackoff.getDelay ⟨some 5, 64, 4, 3⟩ r4 =
        .delay (8 + r4) ⟨some 5, 64, 5, 4⟩ ∧ 8 ≤ 8 + r4 ∧ 8 + r4 < 9) ∧
    ExponentialBackoff.getDelay ⟨some 5, 64, 5, 4⟩ r5 =
      .maxAttemptsReached ⟨some 5, 64, 5, 4⟩ := by
  obtain ⟨h1a, h1b⟩ := h1
  obtain ⟨h2a, h2b⟩ := h2
  obtain ⟨h3a, h3b⟩ := h3
  obtain ⟨h4a, h4b⟩ := h4
  refine ⟨?_, ⟨?_, ?_, ?_⟩, ⟨?_, ?_, ?_⟩, ⟨?_, ?_, ?_⟩, ⟨?_, ?_, ?_⟩, ?_⟩ <;>
    first
      | (norm_num [ExponentialBackoff.getDelay, ExponentialBackoff.init]; done)
      | linarith

/-- C3, witness for the amended sequence at jitter `0` for every call. -/
theorem backoff_default_sequence_witness :
    ((0:Rat) ≤ 0 ∧ (0:Rat) < 1) ∧
    (ExponentialBackoff.getDelay (ExponentialBackoff.init (some 5) 64) 0 =
        .free ⟨some 5, 64, 1, 0⟩ ∧
      ExponentialBackoff.getDelay ⟨some 5, 64, 5, 4⟩ 0 =
        .maxAttemptsReached ⟨some 5, 64, 5, 4⟩) :=
  have h : (0:Rat) ≤ 0 ∧ (0:Rat) < 1 := by decide
  have hall := backoff_default_sequence 0 0 0 0 0 h h h h
  ⟨h, hall.1, hall.2.2.2.2.2⟩

/-- C9: once `get_delay` signals exhaustion the attempt counter is not
advanced (the exception is raised before any mutation), so every later
call signals exhaustion again; `reset()` returns the object to exactly
the state a fresh instance with the same configuration starts in, whose
first call returns `None`. -/
theorem backoff_exhaustion_sticky_until_reset (b b' : ExponentialBackoff) (r r' : Rat)
    (h : b.getDelay r = .maxAttemptsReached b') :
    b' = b ∧
    b.getDelay r' = .maxAttemptsReached b ∧
    b.reset = ExponentialBackoff.init b.max_attempts b.max_delay ∧
    (b.reset).getDelay r' = .free ⟨b.max_attempts, b.max_delay, 1, 0⟩ := by
  unfold ExponentialBackoff.getDelay at h
  by_cases h0 : b.attempt = 0
  · rw [if_pos h0] at h
    cases h
  · by_cases hm : b.max_attempts = some b.attempt
    · rw [if_neg h0, if_pos hm] at h
      have hb : b = b' := by injection h
      subst hb
      refine ⟨rfl, ?_, rfl, ?_⟩
      · unfold ExponentialBackoff.getDelay
        rw [if_neg h0, if_pos hm]
      · simp [ExponentialBackoff.reset, ExponentialBackoff.getDelay]
    · rw [if_neg h0, if_neg hm] at h
      dsimp only at h
      split at h <;> cases h

/-- C9, witness: a backoff with `max_attempts=1` that has consumed its
free call is exhausted, and the theorem's conclusions hold there. -/
theorem backoff_exhaustion_sticky_until_reset_witness :
    ExponentialBackoff.getDelay ⟨some 1, 64, 1, 0⟩ 0 =
      .maxAttemptsReached ⟨some 1, 64, 1, 0⟩ ∧
    (ExponentialBackoff.getDelay ⟨some 1, 64, 1, 0⟩ (1/2) =
        .maxAttemptsReached ⟨some 1, 64, 1, 0⟩ ∧
      ExponentialBackoff.reset ⟨some 1, 64, 1, 0⟩ =
        ExponentialBackoff.init (some 1) 64 ∧
      ExponentialBackoff.getDelay (ExponentialBackoff.reset ⟨some 1, 64, 1, 0⟩) (1/2) =
        .free ⟨some 1, 64, 1, 0⟩) :=
  have h : ExponentialBackoff.getDelay ⟨some 1, 64, 1, 0⟩ 0 =
      .maxAttemptsReached ⟨some 1, 64, 1, 0⟩ := by
    simp [ExponentialBackoff.getDelay]
  have hall := backoff_exhaustion_sticky_until_reset ⟨some 1, 64, 1, 0⟩
    ⟨some 1, 64, 1, 0⟩ 0 (1/2) h
  ⟨h, hall.2.1, hall.2.2.1, hall.2.2.2⟩

/-! ## Claims about the gateway error handling (`events.py`, `gateway.py`) -/

/-- C1: on the failing input — an unauthenticated connection, whose
gateway `authenticated` attribute has never been written — processing an
`ErrorEvent` does not raise the typed authentication failure at all: the
guard read `state.gateway.authenticated` itself raises `AttributeError`
(the attribute is only ever set by `AuthenticatedEvent`), so the typed
branches below it are unreachable; and `GatewayClient.poll_loop` wraps
the handler in `except Exception`, so even that exception is logged and
swallowed and the receive loop continues without dispatching — nothing
terminates the loop or propagates to the connection entry point, while
the claim requires a typed `InvalidCredentials` / `OnboardingNotFinished`
/ `AuthenticationError` out of `connect()`.  After authentication has
succeeded (`authenticated = True`), the error is only logged and the
event still reaches dispatch, matching the claim's second half. -/
theorem errorEvent_pre_auth_attribute_error_swallowed (st st2 : State) (e e2 : String)
    (hauth : st.authenticated = Option.none)
    (hne : e ≠ "AlreadyAuthenticated")
    (hauth2 : st2.authenticated = some true) :
    errorEventHandle st e = .error .attributeError ∧
    GatewayClient.pollStep st (.error e) = .swallowed st ∧
    errorEventHandle st2 e2 = .ok () ∧
    GatewayClient.pollStep st2 (.error e2) = .dispatched .errorEvent st2 := by
  have h1 : errorEventHandle st e = .error .attributeError := by
    unfold errorEventHandle
    rw [if_neg hne, hauth]
  have h2 : errorEventHandle st2 e2 = .ok () := by
    unfold errorEventHandle
    by_cases ha : e2 = "AlreadyAuthenticated"
    · rw [if_pos ha]
    · rw [if_neg ha, hauth2]
      rfl
  refine ⟨h1, ?_, h2, ?_⟩
  · unfold GatewayClient.pollStep Event.gatewayHandle
    dsimp only
    rw [h1]
    rfl
  · unfold GatewayClient.pollStep Event.gatewayHandle
    dsimp only
    rw [h2]
    rfl

/-- C1, witness: the failing input — a state whose `authenticated`
attribute is unset and an `ErrorEvent` with `error="InvalidSession"` —
has the handler raise `AttributeError` (not the typed failure) and the
poll-loop step swallow it and continue; the same error after
authentication is ignored and the event is dispatched. -/
theorem errorEvent_pre_auth_attribute_error_swallowed_witness :
    (({} : State).authenticated = Option.none) ∧
    ("InvalidSession" ≠ "AlreadyAuthenticated") ∧
    ((⟨Option.none, [], [], [], false, some true⟩ : State).authenticated =
      some true) ∧
    errorEventHandle {} "InvalidSession" = .error .attributeError ∧
    GatewayClient.pollStep {} (.error "InvalidSession") = .swallowed {} ∧
    errorEventHandle (⟨Option.none, [], [], [], false, some true⟩ : State)
      "InvalidSession" = .ok () ∧
    GatewayClient.pollStep (⟨Option.none, [], [], [], false, some true⟩ : State)
      (.error "InvalidSession") =
      .dispatched .errorEvent (⟨Option.none, [], [], [], false, some true⟩ : State) :=
  have hall := errorEvent_pre_auth_attribute_error_swallowed {}
    (⟨Option.none, [], [], [], false, some true⟩ : State)
    "InvalidSession" "InvalidSession" rfl (by decide) rfl
  ⟨rfl, by decide, rfl, hall.1, hall.2.1, hall.2.2.1, hall.2.2.2⟩

/-! ## Claims about the delete events (`events.py`) -/

/-- C2, counterexample: a `ServerDeleteEvent` whose server ID is absent
from `state.servers` raises `KeyError` (the source pops with no
default), and so does a `ServerRoleDeleteEvent` whose role ID is absent
from the cached server's roles — the claim's "never raises, state
unchanged" fails for both. -/
theorem serverDelete_and_roleDelete_absent_target_raise :
    serverDeleteEventHandle {} "s1" = .error .keyError ∧
    serverRoleDeleteEventHandle
      { servers := [("s1", ⟨"s1", "o", "n", Option.none, [], [], false, []⟩)] }
      "s1" "r1" = .error .keyError := by
  constructor <;> rfl

/-- C2 (amended): a `ChannelDeleteEvent` for an absent channel ID and a
`ServerMemberLeaveEvent` for an absent member (of a cached server, for a
user other than the authenticated one) are tolerated as no-ops that leave
the State Store unchanged; but `ServerDeleteEvent` for an absent server
ID and `ServerRoleDeleteEvent` for an absent role ID raise `KeyError`
(which the receive loop then catches and logs, dropping the event). -/
theorem delete_events_absent_target_behavior (st : State)
    (cid sid sid2 uid rid : String) (server : Server) (u : User)
    (hc : st.channels.get? cid = Option.none)
    (hs : st.servers.get? sid = some server)
    (hm : server.members.get? uid = Option.none)
    (hr : server.roles.get? rid = Option.none)
    (hu : st.user = some u) (hne : uid ≠ u.id)
    (hs2 : st.servers.get? sid2 = Option.none) :
    channelDeleteEventHandle st cid = .ok st ∧
    serverMemberLeaveEventHandle st sid uid = .ok st ∧
    serverDeleteEventHandle st sid2 = .error .keyError ∧
    serverRoleDeleteEventHandle st sid rid = .error .keyError := by
  refine ⟨?_, ?_, ?_, ?_⟩
  · unfold channelDeleteEventHandle
    rw [hc, Dict.erase_of_get?_eq_none _ _ hc]
    rfl
  · unfold serverMemberLeaveEventHandle
    rw [hs]
    dsimp only
    rw [Dict.erase_of_get?_eq_none _ _ hm]
    have hserver : (⟨server.id, server.owner_id, server.name, server.description,
        server.channel_ids, server.roles, server.nsfw, server.members⟩ : Server) =
        server := rfl
    rw [hserver, Dict.insert_of_get?_eq_some _ _ _ hs]
    rw [hu]
    dsimp only
    rw [if_neg hne, ← hu]
  · unfold serverDeleteEventHandle
    rw [hs2]
  · unfold serverRoleDeleteEventHandle
    rw [hs]
    dsimp only
    rw [hr]

/-- C2, witness for the amended behavior on a concrete store with one
cached server (no members, no roles) and an authenticated user. -/
theorem delete_events_absent_target_behavior_witness :
    ((⟨some ⟨"u0", "me", true, some .user⟩, [],
        [("s1", ⟨"s1", "o", "n", Option.none, [], [], false, []⟩)], [],
        false, Option.none⟩ : State).channels.get? "c1" = Option.none) ∧
    channelDeleteEventHandle
      (⟨some ⟨"u0", "me", true, some .user⟩, [],
        [("s1", ⟨"s1", "o", "n", Option.none, [], [], false, []⟩)], [],
        false, Option.none⟩ : State) "c1" =
      .ok (⟨some ⟨"u0", "me", true, some .user⟩, [],
        [("s1", ⟨"s1", "o", "n", Option.none, [], [], false, []⟩)], [],
        false, Option.none⟩ : State) ∧
    serverMemberLeaveEventHandle
      (⟨some ⟨"u0", "me", true, some .user⟩, [],
        [("s1", ⟨"s1", "o", "n", Option.none, [], [], false, []⟩)], [],
        false, Option.none⟩ : State) "s1" "x" =
      .ok (⟨some ⟨"u0", "me", true, some .user⟩, [],
        [("s1", ⟨"s1", "o", "n", Option.none, [], [], false, []⟩)], [],
        false, Option.none⟩ : State) ∧
    serverDeleteEventHandle
      (⟨some ⟨"u0", "me", true, some .user⟩, [],
        [("s1", ⟨"s1", "o", "n", Option.none, [], [], false, []⟩)], [],
        false, Option.none⟩ : State) "s2" = .error .keyError ∧
    serverRoleDeleteEventHandle
      (⟨some ⟨"u0", "me", true, some .user⟩, [],
        [("s1", ⟨"s1", "o", "n", Option.none, [], [], false, []⟩)], [],
        false, Option.none⟩ : State) "s1" "r1" = .error .keyError :=
  have hall := delete_events_absent_target_behavior
    (⟨some ⟨"u0", "me", true, some .user⟩, [],
      [("s1", ⟨"s1", "o", "n", Option.none, [], [], false, []⟩)], [],
      false, Option.none⟩ : State)
    "c1" "s1" "s2" "x" "r1" ⟨"s1", "o", "n", Option.none, [], [], false, []⟩
    ⟨"u0", "me", true, some .user⟩
    rfl rfl rfl rfl rfl (by decide) rfl
  ⟨rfl, hall.1, hall.2.1, hall.2.2.1, hall.2.2.2⟩

/-- C8: a `ServerMemberLeaveEvent` whose `user_id` equals the
authenticated user's ID (for a cached server) removes the entire server
entry from `state.servers`, not only the member entry. -/
theorem serverMemberLeave_self_removes_server (st : State) (sid : String)
    (server : Server) (u : User)
    (hs : st.servers.get? sid = some server) (hu : st.user = some u) :
    ∃ st', serverMemberLeaveEventHandle st sid u.id = .ok st' ∧
      st'.servers.get? sid = Option.none := by
  unfold serverMemberLeaveEventHandle
  rw [hs]
  dsimp only
  rw [hu]
  dsimp only
  rw [if_pos rfl]
  refine ⟨_, rfl, ?_⟩
  simp [Dict.get?_erase]

/-- C8, witness: the authenticated user leaving the one cached server
drops that server from the store. -/
theorem serverMemberLeave_self_removes_server_witness :
    ((⟨some ⟨"u0", "me", true, some .user⟩, [],
        [("s1", ⟨"s1", "o", "n", Option.none, [],
          [], false, [("u0", ⟨"u0", "s1", Option.none⟩)]⟩)], [],
        false, Option.none⟩ : State).servers.get? "s1" =
      some ⟨"s1", "o", "n", Option.none, [], [], false,
        [("u0", ⟨"u0", "s1", Option.none⟩)]⟩) ∧
    (∃ st', serverMemberLeaveEventHandle
        (⟨some ⟨"u0", "me", true, some .user⟩, [],
          [("s1", ⟨"s1", "o", "n", Option.none, [],
            [], false, [("u0", ⟨"u0", "s1", Option.none⟩)]⟩)], [],
          false, Option.none⟩ : State) "s1"
        (User.id ⟨"u0", "me", true, some .user⟩) = .ok st' ∧
      st'.servers.get? "s1" = Option.none) :=
  ⟨rfl, serverMemberLeave_self_removes_server
    (⟨some ⟨"u0", "me", true, some .user⟩, [],
      [("s1", ⟨"s1", "o", "n", Option.none, [],
        [], false, [("u0", ⟨"u0", "s1", Option.none⟩)]⟩)], [],
      false, Option.none⟩ : State) "s1"
    ⟨"s1", "o", "n", Option.none, [], [], false,
      [("u0", ⟨"u0", "s1", Option.none⟩)]⟩
    ⟨"u0", "me", true, some .user⟩ rfl rfl⟩

/-- C10: `ServerRoleUpdateEvent` on a cached server is an upsert.  When
the role ID is absent from the server's roles, the outcome is exactly
that of constructing a `Role` from the event's `data` (the caught
`KeyError` never propagates) and, on success, inserting it with the
event's `new` flag set to `True`; when the role ID is present, the
cached role is patched in place via clear-then-patch and `new` is
`False`, with no exception possible. -/
theorem serverRoleUpdate_upsert (st : State) (sid rid : String) (server : Server)
    (role0 : Role) (data : RoleData) (clear : Option String)
    (hs : st.servers.get? sid = some server) :
    (server.roles.get? rid = Option.none →
      serverRoleUpdateEventHandle st sid rid data clear =
        (Role.fromDict data).map (fun role =>
          ({ st with
              servers := st.servers.insert sid
                { server with roles := server.roles.insert rid role } },
            true))) ∧
    (server.roles.get? rid = some role0 →
      serverRoleUpdateEventHandle st sid rid data clear =
        .ok ({ st with
            servers := st.servers.insert sid
              { server with
                  roles := server.roles.insert rid
                    (role0.updateFromEvent data clear) } },
          false)) := by
  constructor
  · intro hr
    unfold serverRoleUpdateEventHandle
    rw [hs]
    dsimp only
    rw [hr]
    cases hparse : Role.fromDict data <;> simp [hparse, Except.map]
  · intro hr
    unfold serverRoleUpdateEventHandle
    rw [hs]
    dsimp only
    rw [hr]

/-- C10, witness: on a server caching exactly role `r0`, an event for
absent `r1` resolves to inserting the role parsed from `data` with
`new=True` (and a second application for present `r0` is covered by the
theorem's other conjunct). -/
theorem serverRoleUpdate_upsert_witness :
    ((⟨Option.none, [],
        [("s1", ⟨"s1", "o", "n", Option.none, [],
          [("r0", ⟨"r0", "old", 1, 2, Option.none, false, 3⟩)], false, []⟩)], [],
        false, Option.none⟩ : State).servers.get? "s1" =
      some ⟨"s1", "o", "n", Option.none, [],
        [("r0", ⟨"r0", "old", 1, 2, Option.none, false, 3⟩)], false, []⟩) ∧
    ((⟨"s1", "o", "n", Option.none, [],
        [("r0", ⟨"r0", "old", 1, 2, Option.none, false, 3⟩)], false, []⟩ :
          Server).roles.get? "r1" = Option.none →
      serverRoleUpdateEventHandle
        (⟨Option.none, [],
          [("s1", ⟨"s1", "o", "n", Option.none, [],
            [("r0", ⟨"r0", "old", 1, 2, Option.none, false, 3⟩)], false, []⟩)], [],
          false, Option.none⟩ : State) "s1" "r1"
        ⟨some "r1", some "fresh", some (4, 5), Option.none, Option.none, some 6⟩
        Option.none =
        (Role.fromDict
          ⟨some "r1", some "fresh", some (4, 5), Option.none, Option.none, some 6⟩).map
          (fun role =>
            ((⟨Option.none, [],
              Dict.insert
                [("s1", ⟨"s1", "o", "n", Option.none, [],
                  [("r0", ⟨"r0", "old", 1, 2, Option.none, false, 3⟩)], false, []⟩)]
                "s1"
                (⟨"s1", "o", "n", Option.none, [],
                  Dict.insert [("r0", ⟨"r0", "old", 1, 2, Option.none, false, 3⟩)]
                    "r1" role,
                  false, []⟩ : Server),
              [], false, Option.none⟩ : State),
              true))) :=
  have hall := serverRoleUpdate_upsert
    (⟨Option.none, [],
      [("s1", ⟨"s1", "o", "n", Option.none, [],
        [("r0", ⟨"r0", "old", 1, 2, Option.none, false, 3⟩)], false, []⟩)], [],
      false, Option.none⟩ : State) "s1" "r1"
    ⟨"s1", "o", "n", Option.none, [],
      [("r0", ⟨"r0", "old", 1, 2, Option.none, false, 3⟩)], false, []⟩
    ⟨"r0", "old", 1, 2, Option.none, false, 3⟩
    ⟨some "r1", some "fresh", some (4, 5), Option.none, Option.none, some 6⟩
    Option.none rfl
  ⟨rfl, hall.1⟩

/-- C5: for a cached group/text/voice channel, `ChannelUpdateEvent`
removes the field named by `clear` before applying the partial patch
`data`: after the update the icon is exactly `data`'s icon (i.e. cleared
when `data` omits it — including for an empty patch — and `data`'s value
when present, so `data` wins), and likewise for the description. -/
theorem channelUpdate_clear_then_patch (st : State) (cid : String) (ch : Channel)
    (data : ChannelData) (clear : Option String)
    (hch : st.channels.get? cid = some ch) (hgtv : ch.handlesClear = true) :
    ∃ ch', channelUpdateEventHandle st cid data clear =
        .ok { st with channels := st.channels.insert cid ch' } ∧
      (clear = some "Icon" → ch'.icon? = some data.icon) ∧
      (clear = some "Description" → ch'.description? = some data.description) := by
  unfold channelUpdateEventHandle
  rw [hch]
  dsimp only
  refine ⟨_, rfl, ?_, ?_⟩
  · intro hI
    subst hI
    cases ch with
    | group c =>
      simp only [Channel.updateFromChannelUpdateEvent, if_pos rfl,
        Channel.updateFromDict, Channel.icon?]
      cases data.icon <;> simp
    | text c =>
      simp only [Channel.updateFromChannelUpdateEvent, if_pos rfl,
        Channel.updateFromDict, Channel.icon?]
      cases data.icon <;> simp
    | voice c =>
      simp only [Channel.updateFromChannelUpdateEvent, if_pos rfl,
        Channel.updateFromDict, Channel.icon?]
      cases data.icon <;> simp
    | savedMessages c => simp [Channel.handlesClear] at hgtv
    | dm c => simp [Channel.handlesClear] at hgtv
    | unknown c => simp [Channel.handlesClear] at hgtv
  · intro hD
    subst hD
    have hne : (some "Description" : Option String) ≠ some "Icon" := by decide
    cases ch with
    | group c =>
      simp only [Channel.updateFromChannelUpdateEvent, if_neg hne, if_pos rfl,
        Channel.updateFromDict, Channel.description?]
      cases data.description <;> simp
    | text c =>
      simp only [Channel.updateFromChannelUpdateEvent, if_neg hne, if_pos rfl,
        Channel.updateFromDict, Channel.description?]
      cases data.description <;> simp
    | voice c =>
      simp only [Channel.updateFromChannelUpdateEvent, if_neg hne, if_pos rfl,
        Channel.updateFromDict, Channel.description?]
      cases data.description <;> simp
    | savedMessages c => simp [Channel.handlesClear] at hgtv
    | dm c => simp [Channel.handlesClear] at hgtv
    | unknown c => simp [Channel.handlesClear] at hgtv

/-- C5, witness: clearing the icon of a cached text channel with an
empty patch removes the icon. -/
theorem channelUpdate_clear_then_patch_witness :
    ((⟨Option.none,
        [("c1", Channel.text ⟨"c1", "s1", "general", Option.none, some "icon-data",
          Option.none, false, false⟩)],
        [], [], false, Option.none⟩ : State).channels.get? "c1" =
      some (Channel.text ⟨"c1", "s1", "general", Option.none, some "icon-data",
        Option.none, false, false⟩)) ∧
    ((Channel.text ⟨"c1", "s1", "general", Option.none, some "icon-data",
        Option.none, false, false⟩).handlesClear = true) ∧
    (∃ ch', channelUpdateEventHandle
        (⟨Option.none,
          [("c1", Channel.text ⟨"c1", "s1", "general", Option.none, some "icon-data",
            Option.none, false, false⟩)],
          [], [], false, Option.none⟩ : State) "c1"
        ⟨"c1", "TextChannel", Option.none, Option.none, Option.none, Option.none,
          Option.none, Option.none, Option.none, Option.none, Option.none,
          Option.none, Option.none⟩
        (some "Icon") =
        .ok { (⟨Option.none,
            [("c1", Channel.text ⟨"c1", "s1", "general", Option.none, some "icon-data",
              Option.none, false, false⟩)],
            [], [], false, Option.none⟩ : State) with
          channels := Dict.insert
            [("c1", Channel.text ⟨"c1", "s1", "general", Option.none, some "icon-data",
              Option.none, false, false⟩)] "c1" ch' } ∧
      (some "Icon" = some "Icon" →
        ch'.icon? = some (ChannelData.icon ⟨"c1", "TextChannel", Option.none,
          Option.none, Option.none, Option.none, Option.none, Option.none,
          Option.none, Option.none, Option.none, Option.none, Option.none⟩)) ∧
      (some "Icon" = some "Description" →
        ch'.description? = some (ChannelData.description ⟨"c1", "TextChannel",
          Option.none, Option.none, Option.none, Option.none, Option.none,
          Option.none, Option.none, Option.none, Option.none, Option.none,
          Option.none⟩))) :=
  ⟨rfl, rfl, channelUpdate_clear_then_patch
    (⟨Option.none,
      [("c1", Channel.text ⟨"c1", "s1", "general", Option.none, some "icon-data",
        Option.none, false, false⟩)],
      [], [], false, Option.none⟩ : State) "c1"
    (Channel.text ⟨"c1", "s1", "general", Option.none, some "icon-data",
      Option.none, false, false⟩)
    ⟨"c1", "TextChannel", Option.none, Option.none, Option.none, Option.none,
      Option.none, Option.none, Option.none, Option.none, Option.none,
      Option.none, Option.none⟩
    (some "Icon") rfl rfl⟩

/-- C6: a `MessageEvent` applied to a cached channel carrying a
last-message pointer (direct-message, group or text) sets the channel's
`last_message_id` to the message's ID exactly when the raw content is a
string (non-system); a system message leaves the pointer unchanged. -/
theorem messageEvent_last_message_pointer (st : State) (d : MessageData) (ch : Channel)
    (hch : st.channels.get? d.channel = some ch)
    (hp : (ch.lastMessageId?).isSome = true) :
    ∃ ch', messageEventHandle st d =
        .ok { st with channels := st.channels.insert d.channel ch' } ∧
      ((∃ s, d.content = .text s) → ch'.lastMessageId? = some (some d.id)) ∧
      ((∃ ty, d.content = .system ty) → ch'.lastMessageId? = ch.lastMessageId?) := by
  unfold messageEventHandle
  dsimp only [Message.fromDict]
  rw [hch]
  dsimp only
  refine ⟨_, rfl, ?_, ?_⟩
  · rintro ⟨s, hs⟩
    cases ch with
    | dm c =>
      simp [Channel.updateFromMessageEvent, hs, Channel.lastMessageId?,
        Message.fromDict]
    | group c =>
      simp [Channel.updateFromMessageEvent, hs, Channel.lastMessageId?,
        Message.fromDict]
    | text c =>
      simp [Channel.updateFromMessageEvent, hs, Channel.lastMessageId?,
        Message.fromDict]
    | savedMessages c => simp [Channel.lastMessageId?] at hp
    | voice c => simp [Channel.lastMessageId?] at hp
    | unknown c => simp [Channel.lastMessageId?] at hp
  · rintro ⟨ty, hty⟩
    cases ch with
    | dm c =>
      simp [Channel.updateFromMessageEvent, hty, Channel.lastMessageId?,
        Message.fromDict]
    | group c =>
      simp [Channel.updateFromMessageEvent, hty, Channel.lastMessageId?,
        Message.fromDict]
    | text c =>
      simp [Channel.updateFromMessageEvent, hty, Channel.lastMessageId?,
        Message.fromDict]
    | savedMessages c => simp [Channel.lastMessageId?] at hp
    | voice c => simp [Channel.lastMessageId?] at hp
    | unknown c => simp [Channel.lastMessageId?] at hp

/-- C6, witness: a text message advances the pointer of a cached DM
channel; the system-message case is covered by the theorem's other
conjunct. -/
theorem messageEvent_last_message_pointer_witness :
    ((⟨Option.none,
        [("c1", Channel.dm ⟨"c1", true, ["u0", "u1"], Option.none⟩)],
        [], [], false, Option.none⟩ : State).channels.get?
      (MessageData.channel ⟨"m1", "c1", "u1", .text "hi"⟩) =
      some (Channel.dm ⟨"c1", true, ["u0", "u1"], Option.none⟩)) ∧
    (((Channel.dm ⟨"c1", true, ["u0", "u1"], Option.none⟩).lastMessageId?).isSome =
      true) ∧
    (∃ ch', messageEventHandle
        (⟨Option.none,
          [("c1", Channel.dm ⟨"c1", true, ["u0", "u1"], Option.none⟩)],
          [], [], false, Option.none⟩ : State) ⟨"m1", "c1", "u1", .text "hi"⟩ =
        .ok { (⟨Option.none,
            [("c1", Channel.dm ⟨"c1", true, ["u0", "u1"], Option.none⟩)],
            [], [], false, Option.none⟩ : State) with
          channels := Dict.insert
            [("c1", Channel.dm ⟨"c1", true, ["u0", "u1"], Option.none⟩)]
            (MessageData.channel ⟨"m1", "c1", "u1", .text "hi"⟩) ch' } ∧
      ((∃ s, MessageData.content ⟨"m1", "c1", "u1", .text "hi"⟩ = .text s) →
        ch'.lastMessageId? =
          some (some (MessageData.id ⟨"m1", "c1", "u1", .text "hi"⟩))) ∧
      ((∃ ty, MessageData.content ⟨"m1", "c1", "u1", .text "hi"⟩ = .system ty) →
        ch'.lastMessageId? =
          (Channel.dm ⟨"c1", true, ["u0", "u1"], Option.none⟩).lastMessageId?)) :=
  ⟨rfl, rfl, messageEvent_last_message_pointer
    (⟨Option.none,
      [("c1", Channel.dm ⟨"c1", true, ["u0", "u1"], Option.none⟩)],
      [], [], false, Option.none⟩ : State)
    ⟨"m1", "c1", "u1", .text "hi"⟩
    (Channel.dm ⟨"c1", true, ["u0", "u1"], Option.none⟩) rfl rfl⟩

/-! ## Claims about event dispatch and decode (`event_handler.py`, `events.py`) -/

theorem mem_filterSnd_iff (reg : ListenerReg) (ec : EventClass) (l : Nat) :
    l ∈ (reg.filter (fun p => p.1 = ec)).map Prod.snd ↔ (ec, l) ∈ reg := by
  simp only [List.mem_map, List.mem_filter, decide_eq_true_eq]
  constructor
  · rintro ⟨⟨c, l'⟩, ⟨hmem, hc⟩, hl⟩
    simp only at hc hl
    subst hc
    subst hl
    exact hmem
  · intro h
    exact ⟨(ec, l), ⟨h, rfl⟩, rfl⟩

/-- C7: `dispatch` schedules exactly the listeners registered for the
event's concrete class and for its ancestor `Event` base class (the MRO
walk skips `object`), and none registered for any other class; an
unregistered `type` string decodes to the inert `_UnknownEvent`, whose
apply step leaves the state untouched, and whose dispatch still reaches
listeners registered on the base `Event` class. -/
theorem dispatch_ancestor_chain_and_unknown (reg : ListenerReg) (c : EventClass)
    (l : Nat) (st : State) :
    (l ∈ EventHandler.dispatch reg c ↔
      ((EventClass.event, l) ∈ reg ∨ (c, l) ∈ reg)) ∧
    eventClassOfType "UnknownFutureEvent" = .unknownEvent ∧
    Event.gatewayHandle st (.unknown "UnknownFutureEvent") = .ok st ∧
    ((EventClass.event, l) ∈ reg →
      l ∈ EventHandler.dispatch reg .unknownEvent) := by
  have hd : ∀ c' : EventClass, EventHandler.dispatch reg c' =
      if c' = .event then (reg.filter (fun p => p.1 = EventClass.event)).map Prod.snd
      else (reg.filter (fun p => p.1 = EventClass.event)).map Prod.snd ++
        (reg.filter (fun p => p.1 = c')).map Prod.snd := by
    intro c'
    cases c' <;> simp [EventHandler.dispatch, dispatchClasses, eventMro]
  have hiff : ∀ c' : EventClass, l ∈ EventHandler.dispatch reg c' ↔
      ((EventClass.event, l) ∈ reg ∨ (c', l) ∈ reg) := by
    intro c'
    rw [hd c']
    by_cases hc : c' = .event
    · subst hc
      simp [mem_filterSnd_iff]
    · rw [if_neg hc]
      simp [List.mem_append, mem_filterSnd_iff]
  refine ⟨hiff c, rfl, rfl, ?_⟩
  intro h
  exact (hiff .unknownEvent).mpr (Or.inl h)

/-- C7, witness: with a listener on the base class and one on
`MessageEvent`, dispatching a `MessageEvent` reaches both and an
unknown-type event still reaches the base-class listener. -/
theorem dispatch_ancestor_chain_and_unknown_witness :
    ((1 : Nat) ∈ EventHandler.dispatch [(.event, 1), (.messageEvent, 2)] .messageEvent ↔
      ((EventClass.event, 1) ∈ ([(.event, 1), (.messageEvent, 2)] : ListenerReg) ∨
        (EventClass.messageEvent, 1) ∈
          ([(.event, 1), (.messageEvent, 2)] : ListenerReg))) ∧
    eventClassOfType "UnknownFutureEvent" = .unknownEvent ∧
    Event.gatewayHandle {} (.unknown "UnknownFutureEvent") = .ok {} ∧
    ((EventClass.event, 1) ∈ ([(.event, 1), (.messageEvent, 2)] : ListenerReg) →
      (1 : Nat) ∈ EventHandler.dispatch [(.event, 1), (.messageEvent, 2)] .unknownEvent) :=
  dispatch_ancestor_chain_and_unknown [(.event, 1), (.messageEvent, 2)]
    .messageEvent 1 {}

/-! ## Claims about the Ready event (`events.py`) -/

theorem readyBuildServers_contains (st : State) (l : List ServerData)
    (om : Dict (Dict Member)) (acc : Dict Server)
    (om' : Dict (Dict Member)) (acc' : Dict Server)
    (h : readyBuildServers st l om acc = .ok (om', acc')) (a : String) :
    acc'.contains a = true ↔ (a ∈ l.map ServerData.id ∨ acc.contains a = true) := by
  induction l generalizing om acc with
  | nil =>
    unfold readyBuildServers at h
    cases h
    simp
  | cons sd rest ih =>
    unfold readyBuildServers at h
    cases hs : st.servers.get? sd.id with
    | none =>
      rw [hs] at h
      dsimp only at h
      cases hf : Server.fromDict sd with
      | error e => rw [hf] at h; cases h
      | ok server =>
        rw [hf] at h
        dsimp only at h
        rw [ih _ _ h, Dict.contains_insert, List.map_cons, List.mem_cons]
        tauto
    | some server =>
      rw [hs] at h
      dsimp only at h
      cases hf : server.updateFromDict sd with
      | error e => rw [hf] at h; cases h
      | ok server2 =>
        rw [hf] at h
        dsimp only at h
        rw [ih _ _ h, Dict.contains_insert, List.map_cons, List.mem_cons]
        tauto

theorem readyBuildChannels_contains (st : State) (l : List ChannelData)
    (acc : Dict Channel) (acc' : Dict Channel)
    (h : readyBuildChannels st l acc = .ok acc') (a : String) :
    acc'.contains a = true ↔ (a ∈ l.map ChannelData.id ∨ acc.contains a = true) := by
  induction l generalizing acc with
  | nil =>
    unfold readyBuildChannels at h
    cases h
    simp
  | cons cd rest ih =>
    unfold readyBuildChannels at h
    cases hs : st.channels.get? cd.id with
    | none =>
      rw [hs] at h
      dsimp only at h
      cases hf : Channel.fromDict cd with
      | error e => rw [hf] at h; cases h
      | ok channel =>
        rw [hf] at h
        dsimp only at h
        rw [ih _ h, Dict.contains_insert, List.map_cons, List.mem_cons]
        tauto
    | some channel =>
      rw [hs] at h
      dsimp only at h
      rw [ih _ h, Dict.contains_insert, List.map_cons, List.mem_cons]
      tauto

theorem readyBuildUsers_contains (st : State) (l : List UserData)
    (cur : Option User) (acc : Dict User) (cur' : Option User) (acc' : Dict User)
    (h : readyBuildUsers st l cur acc = .ok (cur', acc')) (a : String) :
    acc'.contains a = true ↔ (a ∈ l.map UserData.id ∨ acc.contains a = true) := by
  induction l generalizing cur acc with
  | nil =>
    unfold readyBuildUsers at h
    cases h
    simp
  | cons ud rest ih =>
    unfold readyBuildUsers at h
    cases hv : (match st.users.get? ud.id with
      | Option.none => User.fromDict ud
      | some user => Except.ok (user.updateFromDict ud)) with
    | error e => rw [hv] at h; cases h
    | ok user =>
      rw [hv] at h
      dsimp only at h
      rw [ih _ _ h, Dict.contains_insert, List.map_cons, List.mem_cons]
      tauto

theorem readyAttachMembers_contains (om : Dict (Dict Member)) (l : List MemberData)
    (servers : Dict Server) (servers' : Dict Server)
    (h : readyAttachMembers om l servers = .ok servers') (a : String) :
    servers'.contains a = true ↔ servers.contains a = true := by
  induction l generalizing servers with
  | nil =>
    unfold readyAttachMembers at h
    cases h
    rfl
  | cons md rest ih =>
    unfold readyAttachMembers at h
    dsimp only at h
    set m := (match (om.get? md.server_id).bind (fun ms => ms.get? md.user_id) with
      | Option.none => Member.fromDict md
      | some m0 => m0.updateFromDict md) with hm
    cases hsv : servers.get? m.server_id with
    | none => rw [hsv] at h; cases h
    | some server =>
      rw [hsv] at h
      dsimp only at h
      rw [ih _ h, Dict.contains_insert]
      constructor
      · rintro (rfl | hc)
        · simp [Dict.contains, hsv]
        · exact hc
      · intro hc
        exact Or.inr hc

theorem readyUserStep_fields (st : State) (ud : UserData) (user : User)
    (hv : (match st.users.get? ud.id with
      | Option.none => User.fromDict ud
      | some u0 => Except.ok (u0.updateFromDict ud)) = .ok user)
    (hsome : ud.relationship.isSome = true) :
    user.id = ud.id ∧ user.relationship_status = ud.relationship.join := by
  rcases hr : ud.relationship with _ | r
  · rw [hr] at hsome
    cases hsome
  · rcases hu : st.users.get? ud.id with _ | u0
    · rw [hu] at hv
      dsimp only at hv
      unfold User.fromDict at hv
      rcases hn : ud.username with _ | un <;> rcases ho : ud.online with _ | onl <;>
          rw [hn, ho] at hv <;> dsimp only at hv
      · cases hv
      · cases hv
      · cases hv
      · cases hv
        exact ⟨rfl, by simp [hr]⟩
    · rw [hu] at hv
      dsimp only at hv
      cases hv
      exact ⟨rfl, by simp [User.updateFromDict, hr]⟩

theorem readyBuildUsers_stateUser_frozen (st : State) (l : List UserData)
    (cur : Option User) (acc : Dict User) (cur' : Option User) (acc' : Dict User)
    (h : readyBuildUsers st l cur acc = .ok (cur', acc'))
    (hnone : ∀ ud ∈ l, ud.relationship.isSome = true ∧
      ud.relationship ≠ some (some RelationshipStatus.user)) :
    cur' = cur := by
  induction l generalizing cur acc with
  | nil =>
    unfold readyBuildUsers at h
    cases h
    rfl
  | cons ud rest ih =>
    unfold readyBuildUsers at h
    obtain ⟨hsome, hne⟩ := hnone ud (List.mem_cons_self ud rest)
    cases hv : (match st.users.get? ud.id with
      | Option.none => User.fromDict ud
      | some u0 => Except.ok (u0.updateFromDict ud)) with
    | error e => rw [hv] at h; cases h
    | ok user =>
      rw [hv] at h
      dsimp only at h
      obtain ⟨hid, hstat⟩ := readyUserStep_fields st ud user hv hsome
      have hcond : user.relationship_status ≠ some RelationshipStatus.user := by
        rw [hstat]
        rcases hrel : ud.relationship with _ | r
        · rw [hrel] at hsome; cases hsome
        · intro hj
          apply hne
          rw [hrel]
          have hr2 : r = some RelationshipStatus.user := by simpa using hj
          rw [hr2]
      rw [if_neg hcond] at h
      exact ih _ _ h (fun x hx => hnone x (List.mem_cons_of_mem _ hx))

theorem readyBuildUsers_stateUser (st : State) (l : List UserData)
    (cur : Option User) (acc : Dict User) (cur' : Option User) (acc' : Dict User)
    (u0 : UserData)
    (h : readyBuildUsers st l cur acc = .ok (cur', acc'))
    (hsome : ∀ ud ∈ l, ud.relationship.isSome = true)
    (hfilter : l.filter
      (fun ud => ud.relationship = some (some RelationshipStatus.user)) = [u0]) :
    ∃ u, cur' = some u ∧ u.id = u0.id ∧
      u.relationship_status = some RelationshipStatus.user := by
  induction l generalizing cur acc with
  | nil => simp at hfilter
  | cons ud rest ih =>
    unfold readyBuildUsers at h
    cases hv : (match st.users.get? ud.id with
      | Option.none => User.fromDict ud
      | some u1 => Except.ok (u1.updateFromDict ud)) with
    | error e => rw [hv] at h; cases h
    | ok user =>
      rw [hv] at h
      dsimp only at h
      obtain ⟨hid, hstat⟩ :=
        readyUserStep_fields st ud user hv (hsome ud (List.mem_cons_self ud rest))
      by_cases hm : ud.relationship = some (some RelationshipStatus.user)
      · rw [List.filter_cons, if_pos (decide_eq_true hm)] at hfilter
        have hud : ud = u0 ∧ List.filter
            (fun ud => decide (ud.relationship = some (some RelationshipStatus.user)))
            rest = [] := by
          simpa using hfilter
        obtain ⟨hudeq, hrest⟩ := hud
        have hstatus : user.relationship_status = some RelationshipStatus.user := by
          rw [hstat, hm]
          rfl
        rw [if_pos hstatus] at h
        have hfrozen := readyBuildUsers_stateUser_frozen st rest (some user) _ _ _ h
          (fun x hx => by
            refine ⟨hsome x (List.mem_cons_of_mem _ hx), ?_⟩
            have hnp := List.filter_eq_nil_iff.mp hrest x hx
            simpa using hnp)
        exact ⟨user, hfrozen, hudeq ▸ hid, hstatus⟩
      · rw [List.filter_cons, if_neg (by simpa using hm)] at hfilter
        have hcond : user.relationship_status ≠ some RelationshipStatus.user := by
          rw [hstat]
          rcases hrel : ud.relationship with _ | r
          · simp
          · intro hj
            apply hm
            rw [hrel]
            have hr : r = some RelationshipStatus.user := by simpa using hj
            rw [hr]
        rw [if_neg hcond] at h
        exact ih _ _ h (fun x hx => hsome x (List.mem_cons_of_mem _ hx)) hfilter

/-- C4: applying a second `Ready` payload on top of a state produced by a
first `Ready` leaves `state.servers` / `state.channels` / `state.users`
holding exactly the entity IDs of the second payload (wholesale
replacement, no residual entries), and — since every Ready user entry
carries a `relationship` field and exactly one is marked
`RelationshipStatus.USER` — `state.user` is re-derived as that user. -/
theorem ready_twice_reflects_second_payload (st st1 st2 : State)
    (p1 p2 : ReadyPayload) (u0 : UserData) (a : String)
    (h1 : readyEventHandle st p1 = .ok st1)
    (h2 : readyEventHandle st1 p2 = .ok st2)
    (hsome : ∀ ud ∈ p2.users, ud.relationship.isSome = true)
    (hself : p2.users.filter
      (fun ud => ud.relationship = some (some RelationshipStatus.user)) = [u0]) :
    (st2.servers.contains a = true ↔ a ∈ p2.servers.map ServerData.id) ∧
    (st2.channels.contains a = true ↔ a ∈ p2.channels.map ChannelData.id) ∧
    (st2.users.contains a = true ↔ a ∈ p2.users.map UserData.id) ∧
    (∃ u, st2.user = some u ∧ u.id = u0.id ∧
      u.relationship_status = some RelationshipStatus.user) := by
  unfold readyEventHandle at h2
  split at h2
  · cases h2
  · rename_i oldMembers servers hbs
    dsimp only at h2
    split at h2
    · cases h2
    · rename_i channels hbc
      try dsimp only at h2
      split at h2
      · cases h2
      · rename_i stateUser users hbu
        try dsimp only at h2
        split at h2
        · cases h2
        · rename_i servers2 ham
          cases h2
          refine ⟨?_, ?_, ?_, ?_⟩
          · rw [readyAttachMembers_contains _ _ _ _ ham a,
              readyBuildServers_contains _ _ _ _ _ _ hbs a]
            simp [Dict.contains, Dict.empty, Dict.get?]
          · rw [readyBuildChannels_contains _ _ _ _ hbc a]
            simp [Dict.contains, Dict.empty, Dict.get?]
          · rw [readyBuildUsers_contains _ _ _ _ _ _ hbu a]
            simp [Dict.contains, Dict.empty, Dict.get?]
          · exact readyBuildUsers_stateUser _ _ _ _ _ _ _ hbu hsome hself

/-- C4, witness: an empty first Ready followed by a second Ready whose
only user is marked as the client user: the final store caches exactly
that user and `state.user` is that user. -/
theorem ready_twice_reflects_second_payload_witness :
    readyEventHandle {} {} = .ok ⟨Option.none, [], [], [], true, Option.none⟩ ∧
    readyEventHandle ⟨Option.none, [], [], [], true, Option.none⟩
      ⟨[], [], [⟨"u1", some "me", some true, some (some .user)⟩], []⟩ =
      .ok ⟨some ⟨"u1", "me", true, some .user⟩, [], [],
        [("u1", ⟨"u1", "me", true, some .user⟩)], true, Option.none⟩ ∧
    (∀ ud ∈ [(⟨"u1", some "me", some true, some (some .user)⟩ : UserData)],
      ud.relationship.isSome = true) ∧
    ([(⟨"u1", some "me", some true, some (some .user)⟩ : UserData)].filter
      (fun ud => ud.relationship = some (some RelationshipStatus.user)) =
      [⟨"u1", some "me", some true, some (some .user)⟩]) ∧
    (((⟨some ⟨"u1", "me", true, some .user⟩, [], [],
        [("u1", ⟨"u1", "me", true, some .user⟩)], true, Option.none⟩ : State)).users.contains
      "u1" = true ↔
      "u1" ∈ ([⟨"u1", some "me", some true, some (some .user)⟩] :
        List UserData).map UserData.id) ∧
    (∃ u, ((⟨some ⟨"u1", "me", true, some .user⟩, [], [],
        [("u1", ⟨"u1", "me", true, some .user⟩)], true, Option.none⟩ : State)).user =
        some u ∧
      u.id = UserData.id ⟨"u1", some "me", some true, some (some .user)⟩ ∧
      u.relationship_status = some RelationshipStatus.user) :=
  have hall := ready_twice_reflects_second_payload {}
    ⟨Option.none, [], [], [], true, Option.none⟩
    ⟨some ⟨"u1", "me", true, some .user⟩, [], [],
      [("u1", ⟨"u1", "me", true, some .user⟩)], true, Option.none⟩
    {} ⟨[], [], [⟨"u1", some "me", some true, some (some .user)⟩], []⟩
    ⟨"u1", some "me", some true, some (some .user)⟩ "u1"
    rfl rfl (by decide) (by decide)
  ⟨rfl, rfl, by decide, by decide, hall.2.2.1, hall.2.2.2⟩
